import Mathlib

/-!
Verification of the interactive viewpoint controller (`Input` class in
`src/core/SceneSetup.js`) of the capital-cove repository.

The controller is shallowly embedded: the mutable fields of the JS `Input`
instance become a Lean structure, each event handler becomes a pure function
from (event, state) to state (plus a flag for externally observable effects
such as `preventDefault` or the delegation to `processClick`), numbers are
idealized as real numbers, and the external scene collaborators (camera
presence, ray-intersection result, window size, wall clock) become explicit
parameters.
-/

open Real

/-- 2-component vector, models the plain `{x, y}` records and `THREE.Vector2`. -/
structure Vec2 where
  x : ℝ
  y : ℝ

/-- 3-component vector, models `THREE.Vector3` (only the fields the controller uses). -/
structure Vec3 where
  x : ℝ
  y : ℝ
  z : ℝ

/-- `THREE.Vector3.lerp(target, alpha)`: componentwise `v + (t - v) * alpha`. -/
def Vec3.lerp (v t : Vec3) (alpha : ℝ) : Vec3 :=
  ⟨v.x + (t.x - v.x) * alpha, v.y + (t.y - v.y) * alpha, v.z + (t.z - v.z) * alpha⟩

/-- The slice of a DOM event read by the handlers: pointer coordinates
(`clientX`/`clientY`), wheel delta (`deltaY`), mouse `button`, and the tag name
of the event's target element (used by `isEventOnCanvas`). -/
structure DomEvent where
  clientX : ℝ
  clientY : ℝ
  deltaY : ℝ
  button : Nat
  targetTagName : String

/-- A scene-graph node: its `userData.isInteractable` flag together with its
`parent` back-reference chain (`root` has `parent === null`). -/
inductive Node where
  | root (flag : Bool)
  | child (flag : Bool) (parentNode : Node)
deriving Repr, DecidableEq

/-- `obj.userData && obj.userData.isInteractable` (in three.js `userData`
always exists, so the truthiness check reduces to the flag itself). -/
def Node.isInteractable : Node → Bool
  | .root f => f
  | .child f _ => f

/-- `obj.parent` (`none` models `null`). -/
def Node.parent : Node → Option Node
  | .root _ => none
  | .child _ p => some p

/-- Mutable state of the `Input` instance, as initialized in the constructor
and mutated by the handlers.  `lastTime` and the `raycaster` are not carried:
the wall clock enters `update` as the derived `dtRaw = (now - lastTime)/1000`
parameter, and the ray-intersection result enters `processClick` as a
parameter. -/
structure Input where
  enabled : Bool
  locked : Bool
  targetRadius : ℝ
  currentRadius : ℝ
  targetAngle : ℝ
  currentAngle : ℝ
  targetHeight : ℝ
  currentHeight : ℝ
  targetLook : Vec3
  currentLook : Vec3
  isDragging : Bool
  previousMousePosition : Vec2
  dragStartPosition : Vec2
  mouse : Vec2

/-- `this.minRadius = 150`. -/
def Input.minRadius : ℝ := 150
/-- `this.maxRadius = 600`. -/
def Input.maxRadius : ℝ := 600
/-- `this.minHeight = 50`. -/
def Input.minHeight : ℝ := 50
/-- `this.maxHeight = 500`. -/
def Input.maxHeight : ℝ := 500
/-- `this.dampingFactor = 5.0`. -/
def Input.dampingFactor : ℝ := 5
/-- `this.rotateSpeed = 0.004`. -/
def Input.rotateSpeed : ℝ := 0.004
/-- `this.zoomSpeed = 0.5`. -/
def Input.zoomSpeed : ℝ := 0.5
/-- `this.panSpeed = 0.5`. -/
def Input.panSpeed : ℝ := 0.5

/-- The state set up by the `Input` constructor. -/
def Input.initial : Input where
  enabled := true
  locked := false
  targetRadius := 400
  currentRadius := 400
  targetAngle := 0.78
  currentAngle := 0.78
  targetHeight := 220
  currentHeight := 220
  targetLook := ⟨0, 10, 0⟩
  currentLook := ⟨0, 10, 0⟩
  isDragging := false
  previousMousePosition := ⟨0, 0⟩
  dragStartPosition := ⟨0, 0⟩
  mouse := ⟨0, 0⟩

/-- `Input.setEnabled(isEnabled)`. -/
def Input.setEnabled (isEnabled : Bool) (s : Input) : Input :=
  let s1 := { s with enabled := isEnabled }
  if !isEnabled then { s1 with isDragging := false } else s1

/-- `Input.setLocked(isLocked)`. -/
def Input.setLocked (isLocked : Bool) (s : Input) : Input :=
  { s with locked := isLocked, isDragging := false }

/-- `Input.setLookTarget(vec3)` (the `console.log` is a pure logging effect). -/
def Input.setLookTarget (v : Vec3) (s : Input) : Input :=
  { s with targetLook := v }

/-- `Input.moveCameraTo(vec3)`; `none` models a falsy argument. -/
def Input.moveCameraTo (v : Option Vec3) (s : Input) : Input :=
  match v with
  | none => s
  | some vec => Input.setLookTarget vec s

/-- `Input.isEventOnCanvas(event)`: `event.target.tagName === 'CANVAS'`. -/
def Input.isEventOnCanvas (e : DomEvent) : Bool :=
  e.targetTagName == "CANVAS"

/-- `Input.onMouseDown(event)`. -/
def Input.onMouseDown (e : DomEvent) (s : Input) : Input :=
  if !s.enabled || s.locked then s
  else if !(Input.isEventOnCanvas e) then s
  else if e.button != 0 && e.button != 2 then s
  else
    { s with
      isDragging := true
      previousMousePosition := ⟨e.clientX, e.clientY⟩
      dragStartPosition := ⟨e.clientX, e.clientY⟩ }

/-- `Input.onMouseMove(event)`; `innerWidth`/`innerHeight` are the window
dimensions read for the normalized device coordinates. -/
noncomputable def Input.onMouseMove (innerWidth innerHeight : ℝ) (e : DomEvent)
    (s : Input) : Input :=
  let s1 := { s with
    mouse := ⟨(e.clientX / innerWidth) * 2 - 1, -(e.clientY / innerHeight) * 2 + 1⟩ }
  if !s1.enabled || !s1.isDragging || s1.locked then s1
  else
    let deltaMoveX := e.clientX - s1.previousMousePosition.x
    let deltaMoveY := e.clientY - s1.previousMousePosition.y
    let targetAngle1 := s1.targetAngle + deltaMoveX * Input.rotateSpeed
    let targetHeight1 := s1.targetHeight + deltaMoveY * Input.panSpeed
    { s1 with
      targetAngle := targetAngle1
      targetHeight := max Input.minHeight (min Input.maxHeight targetHeight1)
      previousMousePosition := ⟨e.clientX, e.clientY⟩ }

/-- `Input.onMouseUp(event)`.  The boolean result records whether the handler
delegated to `processClick` (click resolution). -/
noncomputable def Input.onMouseUp (e : DomEvent) (s : Input) : Input × Bool :=
  if !s.enabled then (s, false)
  else if s.locked then ({ s with isDragging := false }, false)
  else
    let wasOnCanvas := Input.isEventOnCanvas e
    let s1 := { s with isDragging := false }
    if !wasOnCanvas then (s1, false)
    else
      let dist := Real.sqrt ((e.clientX - s1.dragStartPosition.x) ^ 2 +
        (e.clientY - s1.dragStartPosition.y) ^ 2)
      if dist < 5 then (s1, true) else (s1, false)

/-- `Input.onWheel(event)`.  The boolean result records whether
`event.preventDefault()` was called. -/
noncomputable def Input.onWheel (e : DomEvent) (s : Input) : Input × Bool :=
  if !s.enabled || s.locked then (s, false)
  else if !(Input.isEventOnCanvas e) then (s, false)
  else
    let targetRadius1 := s.targetRadius + e.deltaY * Input.zoomSpeed
    ({ s with targetRadius := max Input.minRadius (min Input.maxRadius targetRadius1) },
      true)

/-- The interactable walk inside `Input.processClick`:
`while (obj && depth < 5) { if (flag) break; obj = obj.parent; depth++; }`. -/
def Input.findInteractable : Option Node → Nat → Option Node
  | none, _ => none
  | some obj, depth =>
    if h : depth < 5 then
      if obj.isInteractable then some obj
      else Input.findInteractable obj.parent (depth + 1)
    else none
termination_by _ depth => 5 - depth
decreasing_by omega

/-- `Input.processClick()`.  `cameraPresent` models `sceneSetup.camera` being
non-null, `intersects` the ordered result of
`raycaster.intersectObjects(interactables, true)` (nearest first).  The result
is the node handed to the `onObjectClicked` callback (when one is registered);
`none` means the callback is not invoked. -/
def Input.processClick (cameraPresent : Bool) (intersects : List Node) : Option Node :=
  if !cameraPresent then none
  else
    match intersects with
    | [] => none
    | hit :: _ => Input.findInteractable (some hit) 0

/-- `lerpFactor` as computed in `Input.update`: `dampingFactor * dt` with
`dt = Math.min(dtRaw, 0.1)` where `dtRaw = (now - lastTime) / 1000`. -/
noncomputable def Input.updateLerpFactor (dtRaw : ℝ) : ℝ :=
  let dt := min dtRaw 0.1
  Input.dampingFactor * dt

/-- First normalization loop of `Input.update`:
`while (angleDiff > Math.PI) angleDiff -= Math.PI * 2;`. -/
noncomputable def Input.wrapDown (d : ℝ) : ℝ :=
  if h : Real.pi < d then Input.wrapDown (d - 2 * Real.pi) else d
termination_by Nat.ceil ((d - Real.pi) / (2 * Real.pi))
decreasing_by
  have hc : (0 : ℝ) < 2 * Real.pi := by positivity
  have hx : 0 < (d - Real.pi) / (2 * Real.pi) := div_pos (by linarith) hc
  have h1 : 1 ≤ Nat.ceil ((d - Real.pi) / (2 * Real.pi)) := Nat.one_le_ceil_iff.mpr hx
  have heq : (d - 2 * Real.pi - Real.pi) / (2 * Real.pi)
      = (d - Real.pi) / (2 * Real.pi) - 1 := by field_simp; ring
  rw [heq]
  have h2 : Nat.ceil ((d - Real.pi) / (2 * Real.pi) - 1)
      ≤ Nat.ceil ((d - Real.pi) / (2 * Real.pi)) - 1 := by
    apply Nat.ceil_le.mpr
    rw [Nat.cast_sub h1]
    have h3 := Nat.le_ceil ((d - Real.pi) / (2 * Real.pi))
    push_cast
    linarith
  omega

/-- Second normalization loop of `Input.update`:
`while (angleDiff < -Math.PI) angleDiff += Math.PI * 2;`. -/
noncomputable def Input.wrapUp (d : ℝ) : ℝ :=
  if h : d < -Real.pi then Input.wrapUp (d + 2 * Real.pi) else d
termination_by Nat.ceil ((-Real.pi - d) / (2 * Real.pi))
decreasing_by
  have hc : (0 : ℝ) < 2 * Real.pi := by positivity
  have hx : 0 < (-Real.pi - d) / (2 * Real.pi) := div_pos (by linarith) hc
  have h1 : 1 ≤ Nat.ceil ((-Real.pi - d) / (2 * Real.pi)) := Nat.one_le_ceil_iff.mpr hx
  have heq : (-Real.pi - (d + 2 * Real.pi)) / (2 * Real.pi)
      = (-Real.pi - d) / (2 * Real.pi) - 1 := by field_simp; ring
  rw [heq]
  have h2 : Nat.ceil ((-Real.pi - d) / (2 * Real.pi) - 1)
      ≤ Nat.ceil ((-Real.pi - d) / (2 * Real.pi)) - 1 := by
    apply Nat.ceil_le.mpr
    rw [Nat.cast_sub h1]
    have h3 := Nat.le_ceil ((-Real.pi - d) / (2 * Real.pi))
    push_cast
    linarith
  omega

/-- The angle-difference normalization of `Input.update`: both `while` loops
run in sequence on `angleDiff`. -/
noncomputable def Input.normalizeAngle (d : ℝ) : ℝ :=
  Input.wrapUp (Input.wrapDown d)

/-- `Input.update()`.  `cameraPresent` models `sceneSetup.camera` being
non-null, `dtRaw` the elapsed wall-clock seconds `(now - lastTime) / 1000`.
The final assignment of `sceneSetup.camera.position`/`lookAt` mutates the
external camera object, not the controller state, and is not carried here. -/
noncomputable def Input.update (cameraPresent : Bool) (dtRaw : ℝ) (s : Input) : Input :=
  if !cameraPresent then s
  else
    let lerpFactor := Input.updateLerpFactor dtRaw
    let angleDiff := Input.normalizeAngle (s.targetAngle - s.currentAngle)
    { s with
      currentAngle := s.currentAngle + angleDiff * lerpFactor
      currentHeight := s.currentHeight + (s.targetHeight - s.currentHeight) * lerpFactor
      currentRadius := s.currentRadius + (s.targetRadius - s.currentRadius) * lerpFactor
      currentLook := s.currentLook.lerp s.targetLook lerpFactor }

/-- The ownership chain examined by the walk in `Input.processClick`,
starting at a node (or `null`) and following `parent` links, cut off after
`k` nodes. -/
def Input.ancestorChain : Option Node → Nat → List Node
  | none, _ => []
  | some _, 0 => []
  | some n, k + 1 => n :: Input.ancestorChain n.parent k

/-- The range invariant of the rig targets:
`targetRadius ∈ [minRadius, maxRadius]` and
`targetHeight ∈ [minHeight, maxHeight]`. -/
def Input.TargetsInRange (s : Input) : Prop :=
  Input.minRadius ≤ s.targetRadius ∧ s.targetRadius ≤ Input.maxRadius ∧
  Input.minHeight ≤ s.targetHeight ∧ s.targetHeight ≤ Input.maxHeight

theorem Input.findInteractable_eq_find :
    ∀ (k : Nat) (o : Option Node) (d : Nat), 5 - d = k →
      Input.findInteractable o d
        = (Input.ancestorChain o k).find? Node.isInteractable := by
  intro k
  induction k with
  | zero =>
    intro o d hd
    match o with
    | none => simp [Input.findInteractable, Input.ancestorChain]
    | some n =>
      have hge : ¬ d < 5 := by omega
      simp [Input.findInteractable, Input.ancestorChain, hge]
  | succ k ih =>
    intro o d hd
    match o with
    | none => simp [Input.findInteractable, Input.ancestorChain]
    | some n =>
      have hlt : d < 5 := by omega
      have h1 : Input.findInteractable (some n) d
          = if n.isInteractable then some n
            else Input.findInteractable n.parent (d + 1) := by
        rw [Input.findInteractable]
        rw [dif_pos hlt]
      rw [h1]
      simp only [Input.ancestorChain]
      cases hflag : n.isInteractable with
      | true => simp [List.find?, hflag]
      | false => simp [List.find?, hflag, ih n.parent (d + 1) (by omega)]

/-- Claim C1 (amended): for a non-empty intersection result, `processClick`
resolves the first interactable among the nearest hit's ownership chain cut
off after 5 nodes, i.e. the hit node itself and at most 4 parent-links above
it.  A nearest flagged 3rd-level ancestor is resolved, and so is a flagged
node exactly 4 parent-links above the hit, but a flagged node exactly
5 parent-links above the hit is out of reach. -/
theorem claim1_ancestor_walk (hit : Node) (rest : List Node) :
    Input.processClick true (hit :: rest)
      = (Input.ancestorChain (some hit) 5).find? Node.isInteractable ∧
    Input.processClick true
      [Node.child false (Node.child false (Node.child false (Node.root true)))]
      = some (Node.root true) ∧
    Input.processClick true
      [Node.child false (Node.child false (Node.child false (Node.child false
        (Node.root true))))] = some (Node.root true) := by
  refine ⟨?_, ?_, ?_⟩
  · show Input.findInteractable (some hit) 0 = _
    exact Input.findInteractable_eq_find 5 (some hit) 0 rfl
  · simp [Input.processClick, Input.findInteractable, Node.isInteractable, Node.parent]
  · simp [Input.processClick, Input.findInteractable, Node.isInteractable, Node.parent]

/-- Claim C1 counterexample: a hit whose only flagged node sits exactly
5 parent-links above it is NOT resolved — the walk `while (obj && depth < 5)`
examines the hit node and only 4 ancestors, so no callback fires. -/
theorem claim1_counterexample :
    Node.isInteractable (Node.root true) = true ∧
    Input.processClick true
      [Node.child false (Node.child false (Node.child false (Node.child false
        (Node.child false (Node.root true)))))] = none := by
  constructor
  · rfl
  · simp [Input.processClick, Input.findInteractable, Node.isInteractable, Node.parent]

/-- Claim C3 (amended): `onWheel` calls `preventDefault` exactly when the
gates allow input AND the event originates on the canvas (when disabled or
locked the handler returns before `preventDefault`); whenever it does, the
radius target becomes `targetRadius + deltaY * zoomSpeed` clamped to
`[minRadius, maxRadius]`, and otherwise it is untouched. -/
theorem claim3_wheel_gating (e : DomEvent) (s : Input) :
    (Input.onWheel e s).2 = (s.enabled && !s.locked && Input.isEventOnCanvas e) ∧
    (Input.onWheel e s).1.targetRadius =
      (if s.enabled && !s.locked && Input.isEventOnCanvas e then
        max Input.minRadius
          (min Input.maxRadius (s.targetRadius + e.deltaY * Input.zoomSpeed))
      else s.targetRadius) := by
  cases he : s.enabled <;> cases hl : s.locked <;>
    cases hc : Input.isEventOnCanvas e <;>
      simp [Input.onWheel, he, hl, hc]

/-- Claim C3 counterexample: a wheel event on the canvas while input is
disabled does NOT have its default suppressed — the handler returns before
`event.preventDefault()` when the gesture gates block input. -/
theorem claim3_counterexample :
    Input.isEventOnCanvas ⟨0, 0, 100, 0, "CANVAS"⟩ = true ∧
    (Input.onWheel ⟨0, 0, 100, 0, "CANVAS"⟩
      { Input.initial with enabled := false }).2 = false := by
  constructor
  · rfl
  · rfl

/-- Claim C4: for a pointer-up handled while enabled, unlocked and on the
canvas, a Euclidean distance of 0 from the recorded down-position (below the
5 px threshold) is classified as a click and delegated to click resolution,
while a distance of 50 px (at or above the threshold) never is. -/
theorem claim4_click_threshold (s : Input) (e : DomEvent)
    (hen : s.enabled = true) (hlk : s.locked = false)
    (hcv : Input.isEventOnCanvas e = true) :
    (Real.sqrt ((e.clientX - s.dragStartPosition.x) ^ 2 +
        (e.clientY - s.dragStartPosition.y) ^ 2) = 0 →
      (Input.onMouseUp e s).2 = true) ∧
    (Real.sqrt ((e.clientX - s.dragStartPosition.x) ^ 2 +
        (e.clientY - s.dragStartPosition.y) ^ 2) = 50 →
      (Input.onMouseUp e s).2 = false) := by
  constructor
  all_goals intro hd
  all_goals simp [Input.onMouseUp, hen, hlk, hcv, hd]
  all_goals norm_num

theorem claim4_click_threshold_witness :
    (Input.onMouseUp ⟨0, 0, 0, 0, "CANVAS"⟩ Input.initial).2 = true ∧
    (Input.onMouseUp ⟨30, 40, 0, 0, "CANVAS"⟩ Input.initial).2 = false := by
  constructor
  · refine (claim4_click_threshold Input.initial ⟨0, 0, 0, 0, "CANVAS"⟩ rfl rfl rfl).1 ?_
    simp [Input.initial]
  · refine (claim4_click_threshold Input.initial ⟨30, 40, 0, 0, "CANVAS"⟩ rfl rfl rfl).2 ?_
    simp only [Input.initial]
    rw [show ((30:ℝ) - 0) ^ 2 + ((40:ℝ) - 0) ^ 2 = 50 ^ 2 by norm_num]
    exact Real.sqrt_sq (by norm_num)

/-- Claim C5: in `update`, the elapsed time is clamped to at most 0.1 s and
the interpolation factor `dampingFactor * dt` equals
`clamp(dampingFactor * dt, 0, 1)` for every non-negative raw delta (with
`dampingFactor = 5` it never exceeds 1); the factor is the one applied to
radius and height (and angle/look-at) in the per-frame update. -/
theorem claim5_lerp_factor (dtRaw : ℝ) (s : Input) (h : 0 ≤ dtRaw) :
    min dtRaw 0.1 ≤ 0.1 ∧
    Input.updateLerpFactor dtRaw
      = max 0 (min 1 (Input.dampingFactor * min dtRaw 0.1)) ∧
    Input.updateLerpFactor dtRaw ≤ 1 ∧
    (Input.update true dtRaw s).currentRadius
      = s.currentRadius + (s.targetRadius - s.currentRadius)
          * Input.updateLerpFactor dtRaw ∧
    (Input.update true dtRaw s).currentHeight
      = s.currentHeight + (s.targetHeight - s.currentHeight)
          * Input.updateLerpFactor dtRaw := by
  have hb : 0 ≤ Input.dampingFactor * min dtRaw 0.1 ∧
      Input.dampingFactor * min dtRaw 0.1 ≤ 1 / 2 := by
    unfold Input.dampingFactor
    rcases le_total dtRaw 0.1 with hle | hge
    · rw [min_eq_left hle]
      constructor <;> nlinarith
    · rw [min_eq_right hge]
      norm_num
  refine ⟨min_le_right _ _, ?_, ?_, rfl, rfl⟩
  · rw [min_eq_right (by linarith [hb.2]), max_eq_right hb.1]
    rfl
  · show Input.dampingFactor * min dtRaw 0.1 ≤ 1
    linarith [hb.2]

theorem claim5_lerp_factor_witness :
    min (1 : ℝ) 0.1 ≤ 0.1 ∧
    Input.updateLerpFactor 1
      = max 0 (min 1 (Input.dampingFactor * min 1 0.1)) ∧
    Input.updateLerpFactor 1 ≤ 1 ∧
    (Input.update true 1 Input.initial).currentRadius
      = Input.initial.currentRadius
        + (Input.initial.targetRadius - Input.initial.currentRadius)
          * Input.updateLerpFactor 1 ∧
    (Input.update true 1 Input.initial).currentHeight
      = Input.initial.currentHeight
        + (Input.initial.targetHeight - Input.initial.currentHeight)
          * Input.updateLerpFactor 1 :=
  claim5_lerp_factor 1 Input.initial zero_le_one

/-- Claim C6: the radius/height targets stay within their configured bounds
after a pointer-move drag update and after a wheel update, for arbitrary raw
deltas, and the bound is an invariant preserved by every operation of the
controller, given it holds before. -/
theorem claim6_targets_in_range (s : Input) (e : DomEvent) (iw ihh dtRaw : ℝ)
    (b : Bool) (v : Vec3) (hs : Input.TargetsInRange s) :
    Input.TargetsInRange (Input.onMouseMove iw ihh e s) ∧
    Input.TargetsInRange (Input.onWheel e s).1 ∧
    Input.TargetsInRange (Input.onMouseDown e s) ∧
    Input.TargetsInRange (Input.onMouseUp e s).1 ∧
    Input.TargetsInRange (Input.update b dtRaw s) ∧
    Input.TargetsInRange (Input.setEnabled b s) ∧
    Input.TargetsInRange (Input.setLocked b s) ∧
    Input.TargetsInRange (Input.setLookTarget v s) := by
  obtain ⟨h1, h2, h3, h4⟩ := hs
  have hcl : ∀ x : ℝ, Input.minHeight ≤ max Input.minHeight (min Input.maxHeight x) ∧
      max Input.minHeight (min Input.maxHeight x) ≤ Input.maxHeight := fun x =>
    ⟨le_max_left _ _,
      max_le (by norm_num [Input.minHeight, Input.maxHeight]) (min_le_left _ _)⟩
  have hcr : ∀ x : ℝ, Input.minRadius ≤ max Input.minRadius (min Input.maxRadius x) ∧
      max Input.minRadius (min Input.maxRadius x) ≤ Input.maxRadius := fun x =>
    ⟨le_max_left _ _,
      max_le (by norm_num [Input.minRadius, Input.maxRadius]) (min_le_left _ _)⟩
  refine ⟨?_, ?_, ?_, ?_, ?_, ?_, ?_, ?_⟩
  · simp only [Input.onMouseMove]
    split
    · exact ⟨h1, h2, h3, h4⟩
    · exact ⟨h1, h2, (hcl _).1, (hcl _).2⟩
  · simp only [Input.onWheel]
    split
    · exact ⟨h1, h2, h3, h4⟩
    · split
      · exact ⟨h1, h2, h3, h4⟩
      · exact ⟨(hcr _).1, (hcr _).2, h3, h4⟩
  · simp only [Input.onMouseDown]
    repeat' split
    all_goals exact ⟨h1, h2, h3, h4⟩
  · simp only [Input.onMouseUp]
    repeat' split
    all_goals exact ⟨h1, h2, h3, h4⟩
  · simp only [Input.update]
    split
    · exact ⟨h1, h2, h3, h4⟩
    · exact ⟨h1, h2, h3, h4⟩
  · simp only [Input.setEnabled]
    split
    · exact ⟨h1, h2, h3, h4⟩
    · exact ⟨h1, h2, h3, h4⟩
  · exact ⟨h1, h2, h3, h4⟩
  · exact ⟨h1, h2, h3, h4⟩

theorem claim6_targets_in_range_witness :
    Input.TargetsInRange
      (Input.onMouseMove 800 600 ⟨9999, -9999, 0, 0, "CANVAS"⟩ Input.initial) ∧
    Input.TargetsInRange (Input.onWheel ⟨9999, -9999, 0, 0, "CANVAS"⟩ Input.initial).1 ∧
    Input.TargetsInRange (Input.onMouseDown ⟨9999, -9999, 0, 0, "CANVAS"⟩ Input.initial) ∧
    Input.TargetsInRange (Input.onMouseUp ⟨9999, -9999, 0, 0, "CANVAS"⟩ Input.initial).1 ∧
    Input.TargetsInRange (Input.update true 0.016 Input.initial) ∧
    Input.TargetsInRange (Input.setEnabled true Input.initial) ∧
    Input.TargetsInRange (Input.setLocked true Input.initial) ∧
    Input.TargetsInRange (Input.setLookTarget ⟨0, 0, 0⟩ Input.initial) :=
  claim6_targets_in_range Input.initial ⟨9999, -9999, 0, 0, "CANVAS"⟩ 800 600 0.016
    true ⟨0, 0, 0⟩
    (by
      refine ⟨?_, ?_, ?_, ?_⟩ <;>
        norm_num [Input.initial, Input.minRadius, Input.maxRadius,
          Input.minHeight, Input.maxHeight])

/-- Claim C7: locking mid-drag cancels the drag: after `setLocked(true)`, the next
`onMouseUp` ends with `isDragging = false`, performs no click resolution, and
leaves every rig target (angle, radius, height, look-at) unchanged. -/
theorem claim7_lock_cancels_drag (s : Input) (e : DomEvent) :
    (Input.onMouseUp e (Input.setLocked true s)).1.isDragging = false ∧
    (Input.onMouseUp e (Input.setLocked true s)).2 = false ∧
    (Input.onMouseUp e (Input.setLocked true s)).1.targetAngle
      = (Input.setLocked true s).targetAngle ∧
    (Input.onMouseUp e (Input.setLocked true s)).1.targetRadius
      = (Input.setLocked true s).targetRadius ∧
    (Input.onMouseUp e (Input.setLocked true s)).1.targetHeight
      = (Input.setLocked true s).targetHeight ∧
    (Input.onMouseUp e (Input.setLocked true s)).1.targetLook
      = (Input.setLocked true s).targetLook := by
  cases h : s.enabled <;>
    simp [Input.onMouseUp, Input.setLocked, h]

/-- Claim C8: with a null camera, `update` leaves the whole controller state
unchanged and `processClick` resolves nothing (no callback invocation). -/
theorem claim8_null_camera_noop (s : Input) (dtRaw : ℝ) (hits : List Node) :
    Input.update false dtRaw s = s ∧ Input.processClick false hits = none :=
  ⟨rfl, rfl⟩

/-- Claim C9: `setEnabled(false)` is idempotent, and a single call both disables
input and clears any in-progress drag. -/
theorem claim9_setEnabled_idempotent (s : Input) :
    Input.setEnabled false (Input.setEnabled false s) = Input.setEnabled false s ∧
    (Input.setEnabled false s).enabled = false ∧
    (Input.setEnabled false s).isDragging = false :=
  ⟨rfl, rfl, rfl⟩

theorem Input.wrapDown_of_le (d : ℝ) (h : d ≤ Real.pi) : Input.wrapDown d = d := by
  rw [Input.wrapDown]
  exact dif_neg (not_lt.mpr h)

theorem Input.wrapDown_of_gt (d : ℝ) (h : Real.pi < d) :
    Input.wrapDown d = Input.wrapDown (d - 2 * Real.pi) := by
  conv_lhs => rw [Input.wrapDown]
  exact dif_pos h

theorem Input.wrapUp_of_ge (d : ℝ) (h : -Real.pi ≤ d) : Input.wrapUp d = d := by
  rw [Input.wrapUp]
  exact dif_neg (not_lt.mpr h)

theorem Input.wrapUp_of_lt (d : ℝ) (h : d < -Real.pi) :
    Input.wrapUp d = Input.wrapUp (d + 2 * Real.pi) := by
  conv_lhs => rw [Input.wrapUp]
  exact dif_pos h

theorem Input.wrapDown_le (d : ℝ) : Input.wrapDown d ≤ Real.pi := by
  induction d using Input.wrapDown.induct with
  | case1 d h ih =>
    rw [Input.wrapDown_of_gt d h]
    exact ih
  | case2 d h =>
    rw [Input.wrapDown_of_le d (not_lt.mp h)]
    exact not_lt.mp h

theorem Input.wrapUp_ge (d : ℝ) : -Real.pi ≤ Input.wrapUp d := by
  induction d using Input.wrapUp.induct with
  | case1 d h ih =>
    rw [Input.wrapUp_of_lt d h]
    exact ih
  | case2 d h =>
    rw [Input.wrapUp_of_ge d (not_lt.mp h)]
    exact not_lt.mp h

theorem Input.wrapUp_le (d : ℝ) : d ≤ Real.pi → Input.wrapUp d ≤ Real.pi := by
  induction d using Input.wrapUp.induct with
  | case1 d h ih =>
    intro _
    rw [Input.wrapUp_of_lt d h]
    exact ih (by linarith)
  | case2 d h =>
    intro hd
    rw [Input.wrapUp_of_ge d (not_lt.mp h)]
    exact hd

theorem Input.wrapDown_sub (d : ℝ) :
    ∃ k : ℤ, Input.wrapDown d = d - 2 * Real.pi * k := by
  induction d using Input.wrapDown.induct with
  | case1 d h ih =>
    obtain ⟨k, hk⟩ := ih
    refine ⟨k + 1, ?_⟩
    rw [Input.wrapDown_of_gt d h, hk]
    push_cast
    ring
  | case2 d h =>
    refine ⟨0, ?_⟩
    rw [Input.wrapDown_of_le d (not_lt.mp h)]
    push_cast
    ring

theorem Input.wrapUp_add (d : ℝ) :
    ∃ k : ℤ, Input.wrapUp d = d + 2 * Real.pi * k := by
  induction d using Input.wrapUp.induct with
  | case1 d h ih =>
    obtain ⟨k, hk⟩ := ih
    refine ⟨k + 1, ?_⟩
    rw [Input.wrapUp_of_lt d h, hk]
    push_cast
    ring
  | case2 d h =>
    refine ⟨0, ?_⟩
    rw [Input.wrapUp_of_ge d (not_lt.mp h)]
    push_cast
    ring

/-- Claim C2 (amended): the per-frame angle difference is normalized into the
CLOSED interval `[-π, π]` (both endpoints attainable, so not the half-open
`(-π, π]`), differs from the raw difference by an integer multiple of `2π`,
and the current angle then moves by the normalized difference times
`lerpFactor`; for target 359° and current 1° the normalized difference is
`-2°` in radians, i.e. negative, so convergence runs through 0°/360° and not
through 180°. -/
theorem claim2_angle_normalization (d dtRaw : ℝ) (s : Input) :
    Input.normalizeAngle d ∈ Set.Icc (-Real.pi) Real.pi ∧
    (∃ k : ℤ, Input.normalizeAngle d = d - 2 * Real.pi * k) ∧
    (Input.update true dtRaw s).currentAngle
      = s.currentAngle + Input.normalizeAngle (s.targetAngle - s.currentAngle)
          * Input.updateLerpFactor dtRaw ∧
    Input.normalizeAngle (359 * (Real.pi / 180) - 1 * (Real.pi / 180))
      = -(2 * (Real.pi / 180)) ∧
    Input.normalizeAngle (359 * (Real.pi / 180) - 1 * (Real.pi / 180)) < 0 := by
  have hpi := Real.pi_pos
  have h358 : Input.normalizeAngle (359 * (Real.pi / 180) - 1 * (Real.pi / 180))
      = -(2 * (Real.pi / 180)) := by
    have hgt : Real.pi < 359 * (Real.pi / 180) - 1 * (Real.pi / 180) := by linarith
    unfold Input.normalizeAngle
    rw [Input.wrapDown_of_gt _ hgt]
    rw [show 359 * (Real.pi / 180) - 1 * (Real.pi / 180) - 2 * Real.pi
        = -(2 * (Real.pi / 180)) by ring]
    rw [Input.wrapDown_of_le _ (by linarith)]
    rw [Input.wrapUp_of_ge _ (by linarith)]
  refine ⟨?_, ?_, rfl, h358, ?_⟩
  · exact Set.mem_Icc.mpr
      ⟨Input.wrapUp_ge _, Input.wrapUp_le _ (Input.wrapDown_le d)⟩
  · obtain ⟨k1, hk1⟩ := Input.wrapDown_sub d
    obtain ⟨k2, hk2⟩ := Input.wrapUp_add (Input.wrapDown d)
    refine ⟨k1 - k2, ?_⟩
    unfold Input.normalizeAngle
    rw [hk2, hk1]
    push_cast
    ring
  · rw [h358]
    linarith

/-- Claim C2 counterexample: for target angle `0` and current angle `π` the
raw difference is `0 - π = -π`; neither loop fires, the normalized difference
is `-π`, and `-π` does not lie in the half-open interval `(-π, π]` claimed by
the spec — the code's normalization range is the closed `[-π, π]`. -/
theorem claim2_counterexample :
    Input.normalizeAngle (0 - Real.pi) = -Real.pi ∧
    -Real.pi ∉ Set.Ioc (-Real.pi) Real.pi := by
  have hpi := Real.pi_pos
  constructor
  · unfold Input.normalizeAngle
    rw [show (0 : ℝ) - Real.pi = -Real.pi by ring]
    rw [Input.wrapDown_of_le _ (by linarith)]
    rw [Input.wrapUp_of_ge _ le_rfl]
  · simp

/-- Claim C10: every `setLocked` call clears `isDragging`, regardless of the boolean
argument; in particular `setLocked(false)` (unlocking) also discards an
in-progress drag. -/
theorem claim10_setLocked_clears_drag (s : Input) (b : Bool) :
    (Input.setLocked b s).isDragging = false ∧
    (Input.setLocked false s).isDragging = false ∧
    (Input.setLocked false s).locked = false :=
  ⟨rfl, rfl, rfl⟩
